import Mathlib

/-!
Shallow embedding of the scene-planning and transcode-pipeline engine of
`BillyCompiler.py` (class `VideoWorker` plus the module-level helper
`get_media_info`).  Pure Python values are translated as follows: Python
`int` becomes `Int` (with `Int.fdiv` for Python floor division `//`),
Python strings become `String`, Python lists become `List`, Python dicts
used as string-keyed caches become association lists, and the external
collaborators (ffprobe / ffmpeg processes, the random module) become
explicit parameters supplying their observable results.
-/

/-- Settings dictionary assembled by `App.generate_video` (lines 284-291 of
the source): `layout_mix` is the slider value 0-100, `clip_vol` the slider
value divided by 100 (kept exact as a rational), the two durations are the
spinbox integers, and the two path strings. -/
structure Settings where
  layout_mix : Nat
  clip_vol : ℚ
  total_duration : Int
  scene_duration : Int
  output_folder : String
  output_path : String
deriving DecidableEq

/-- Model of `random.choice(xs)`: the random source supplies a draw `g`,
uniform over the valid indices, and the chosen element is `xs[g % len(xs)]`
(for a uniform `g` below the length the reduction is the identity). -/
def randChoice (xs : List String) (g : Nat) : String :=
  (xs.get? (g % xs.length)).getD ""

/-- Model of `random.sample(xs, k)` (sampling without replacement): the
random source supplies a list of draws; each step picks the index given by
the next draw reduced modulo the remaining population size, removes that
element from the population and continues.  Any selection-without-
replacement procedure is extensionally of this shape. -/
def randSample : List String → Nat → List Nat → List String
  | _, 0, _ => []
  | xs, Nat.succ k, rand =>
    let i := rand.headD 0 % xs.length
    ((xs.get? i).getD "") :: randSample (xs.eraseIdx i) k rand.tail

/-- Required participant count per scene type, from lines 126-128 of the
source: `req_vids = 1`, then `4` for `2x2`, `9` for `3x3`. -/
def reqVids (sceneType : String) : Nat :=
  if sceneType = "2x2" then 4 else if sceneType = "3x3" then 9 else 1

/-- One layout draw of `_plan_scenes` (lines 112-116): draw
`r = random.randint(1, 100)`; if `r <= layout_mix` the scene is a grid,
chosen by `random.choice` over the pair list `2x2, 3x3` with draw `g`; otherwise
`single`. -/
def drawScene (layoutMix : Nat) (r : Nat) (g : Nat) : String :=
  if r ≤ layoutMix then randChoice ["2x2", "3x3"] g else "single"

/-- `VideoWorker._plan_scenes` (lines 107-117).  Returns the ordered list
of scene type strings (the code stores each scene as a dict
`{"type": t}`, whose only key is the type, so a scene is modelled by the
type string alone).  `scene_duration <= 0` yields the empty plan; otherwise
the count is the Python floor division `total_duration // scene_duration`
(with `range` of a negative count empty, as in Python). -/
def plan_scenes (settings : Settings) (draws : Nat → Nat × Nat) : List String :=
  if settings.scene_duration ≤ 0 then []
  else
    (List.range (settings.total_duration.fdiv settings.scene_duration).toNat).map
      (fun k => drawScene settings.layout_mix (draws k).1 (draws k).2)

/-- One stage of the `-filter_complex` video chain built by
`_create_scene_clip` (lines 138-149), with the f-string text replaced by
its variable fields.  `scalePad i w h out` stands for the stage
`[i:v]scale=W:H:force_original_aspect_ratio=decrease,pad=W:H:-1:-1:color=black,setpts=PTS-STARTPTS[out]`
targeting a `w` by `h` frame (in the single-layout stage the code writes
the combined size string `1280x720` for both filters); `hstack ins n out`
stands for `[ins…]hstack=inputs=n[out]` and `vstack` for the analogous
`vstack` stage. -/
inductive VStage
  | scalePad (inputIdx : Nat) (w h : Nat) (outLabel : String)
  | hstack (inLabels : List String) (numInputs : Nat) (outLabel : String)
  | vstack (inLabels : List String) (numInputs : Nat) (outLabel : String)
deriving DecidableEq

/-- Video filter chain of `_create_scene_clip` (lines 138-149).  Single
layout: one scale+pad stage from input 0 to label `vout` at the target
resolution 1280x720.  Grid layout: `grid_dim` is 2 for `2x2`, else 3;
tile size is `1280 // grid_dim` by `720 // grid_dim`; one scale+pad stage
per participant `i` to label `v<i>`, then per row `r` an hstack of the
labels `v<r*d+c>` to `row<r>`, then one vstack of the `row<r>` labels to
`vout`. -/
def buildVideoFilters (sceneType : String) : List VStage :=
  if sceneType = "single" then
    [VStage.scalePad 0 1280 720 "vout"]
  else
    let gridDim := if sceneType = "2x2" then 2 else 3
    let tileW := 1280 / gridDim
    let tileH := 720 / gridDim
    let tiles := (List.range (reqVids sceneType)).map
      (fun i => VStage.scalePad i tileW tileH ("v" ++ toString i))
    let rows := (List.range gridDim).map
      (fun r => VStage.hstack
        ((List.range gridDim).map (fun c => "v" ++ toString (r * gridDim + c)))
        gridDim ("row" ++ toString r))
    tiles ++ rows ++
      [VStage.vstack ((List.range gridDim).map (fun r => "row" ++ toString r)) gridDim "vout"]

/-- Frame size carried by a labelled stream while evaluating a filter
chain: an association list from output label to (width, height). -/
def lookupLabel (m : List (String × Nat × Nat)) (l : String) : Option (Nat × Nat) :=
  (m.find? (fun e => e.1 = l)).map (fun e => e.2)

/-- Frame-size semantics of one video stage: a scale+pad stage emits a
frame of exactly its target size; `hstack` emits the sum of its input
widths at their common height; `vstack` emits the sum of the input heights
at their common width (the ffmpeg stack filters require the common
dimension to agree, so a mismatch yields no output). -/
def stepStage (m : List (String × Nat × Nat)) : VStage → List (String × Nat × Nat)
  | VStage.scalePad _ w h out => (out, w, h) :: m
  | VStage.hstack ins _ out =>
    match ins.mapM (lookupLabel m) with
    | none => m
    | some [] => m
    | some ((w0, h0) :: rest) =>
      if rest.all (fun p => p.2 = h0) then
        (out, (((w0, h0) :: rest).map (fun p => p.1)).sum, h0) :: m
      else m
  | VStage.vstack ins _ out =>
    match ins.mapM (lookupLabel m) with
    | none => m
    | some [] => m
    | some ((w0, h0) :: rest) =>
      if rest.all (fun p => p.1 = w0) then
        (out, w0, (((w0, h0) :: rest).map (fun p => p.2)).sum) :: m
      else m

/-- Size of the frame a filter chain delivers on its `vout` label. -/
def videoOutSize (stages : List VStage) : Option (Nat × Nat) :=
  lookupLabel (stages.foldl stepStage []) "vout"

/-- Observable shape of the ffprobe stdout as consumed by
`get_media_info` (lines 21-29): not parseable as JSON (`json.loads`
raises `JSONDecodeError`); a JSON object whose `streams` key is absent
(`info.get` returns `None`) or present with a value of the given
truthiness (`bool` of the `streams` entry); or valid JSON whose top-level
value is not an object (so `info.get` does not exist). -/
inductive ProbeJson
  | notJson
  | obj (streams : Option Bool)
  | nonObj
deriving DecidableEq

/-- Observable outcome of one ffprobe invocation: non-zero exit
(`subprocess.run(..., check=True)` raises `CalledProcessError`) or exit
zero with the given stdout shape. -/
inductive ProbeOutcome
  | exitNonzero
  | exitZero (stdout : ProbeJson)
deriving DecidableEq

/-- Module-level `get_media_info` (lines 21-29), returning the
`has_audio` flag.  The `try` block catches `CalledProcessError`,
`JSONDecodeError` and `KeyError` and returns `has_audio = False`; the
`KeyError` arm is unreachable (`dict.get` never raises it), and when
`json.loads` yields a non-object top-level value the attribute access
`info.get` raises `AttributeError`, which is not caught and escapes the
function — modelled as `Except.error`. -/
def get_media_info : ProbeOutcome → Except String Bool
  | ProbeOutcome.exitNonzero => Except.ok false
  | ProbeOutcome.exitZero ProbeJson.notJson => Except.ok false
  | ProbeOutcome.exitZero (ProbeJson.obj none) => Except.ok false
  | ProbeOutcome.exitZero (ProbeJson.obj (some b)) => Except.ok b
  | ProbeOutcome.exitZero ProbeJson.nonObj => Except.error "AttributeError"

/-- Recursion of `_cache_video_info` (lines 102-105) over the video file
list, threading the cache (an association list mirroring the dict
`video_info_cache`) and the trace of paths for which the external prober
was actually invoked; an escaping probe exception aborts the loop. -/
def cacheVideoInfoAux (probe : String → ProbeOutcome) :
    List String → List (String × Bool) → List String →
    Except String (List (String × Bool) × List String)
  | [], cache, calls => Except.ok (cache, calls)
  | vid :: rest, cache, calls =>
    if (cache.find? (fun e => e.1 = vid)).isSome then
      cacheVideoInfoAux probe rest cache calls
    else
      match get_media_info (probe vid) with
      | Except.error e => Except.error e
      | Except.ok b => cacheVideoInfoAux probe rest (cache ++ [(vid, b)]) (calls ++ [vid])

/-- `VideoWorker._cache_video_info` (lines 102-105): probe each video file
once, skipping paths already in the cache. -/
def cache_video_info (videoFiles : List String) (probe : String → ProbeOutcome) :
    Except String (List (String × Bool) × List String) :=
  cacheVideoInfoAux probe videoFiles [] []

/-- Lookup `self.video_info_cache.get(v, ...).get(...)` for key `has_audio` as a
truthiness test (line 152): a missing cache entry reads as no audio. -/
def cacheHasAudio (cache : List (String × Bool)) (v : String) : Bool :=
  ((cache.find? (fun e => e.1 = v)).map (fun e => e.2)).getD false

/-- Line 152: `vids_with_audio = [i for i, v in enumerate(scene_vids) if
self.video_info_cache...]` (line 152). -/
def vidsWithAudio (sceneVids : List String) (cache : List (String × Bool)) : List Nat :=
  (sceneVids.enum.filter (fun p => cacheHasAudio cache p.2)).map (fun p => p.1)

/-- The `amix` stage of lines 154-155, by its variable fields:
`[i:a]…amix=inputs=N,volume=V[aout]` over the audio-input indices
`inputs`, with `N = nInputs` and `V = volume`. -/
structure AMixStage where
  inputs : List Nat
  nInputs : Nat
  volume : ℚ
deriving DecidableEq

/-- Final audio mapping of the scene command: `-map [aout]` when a mix
stage exists, `-an` otherwise (lines 156-158). -/
inductive AudioMap
  | aout
  | an
deriving DecidableEq

/-- Everything `_create_scene_clip` (lines 119-168) assembles into its
ffmpeg command for one scene: the chosen participants (`scene_vids`,
which are also the `-i` inputs in order), the video filter chain, the
optional `amix` stage, the audio mapping, and the `-t` duration cap. -/
structure SceneClip where
  participants : List String
  videoFilters : List VStage
  audioMix : Option AMixStage
  audioMap : AudioMap
  durationCap : Int
deriving DecidableEq

/-- Participant selection of `_create_scene_clip` (lines 130-133): when
the pool is smaller than the required count, `scene_vids` draws each
participant independently by `random.choice` (with replacement); otherwise
`random.sample` draws without replacement. -/
def chooseParticipants (videoFiles : List String) (req : Nat) (rand : List Nat) :
    List String :=
  if videoFiles.length < req then
    (List.range req).map (fun k => randChoice videoFiles (rand.getD k 0))
  else
    randSample videoFiles req rand

/-- Audio chain of `_create_scene_clip` (lines 151-158): when at least one
participant has cached audio, one `amix` stage over exactly the
audio-bearing indices followed by `volume=clip_vol`, mapped as
`-map [aout]`; otherwise no stage and the `-an` mapping. -/
def buildAudio (sceneVids : List String) (cache : List (String × Bool)) (vol : ℚ) :
    Option AMixStage × AudioMap :=
  let awa := vidsWithAudio sceneVids cache
  if awa.isEmpty then (none, AudioMap.an)
  else (some ⟨awa, awa.length, vol⟩, AudioMap.aout)

/-- `VideoWorker._create_scene_clip` (lines 119-168).  Participant
selection follows lines 130-133; the video chain, audio chain and mapping
follow lines 138-158; the command ends with `-t scene_duration` and the
fixed codec profile.  The final `subprocess.run(command,
capture_output=True)` discards the process result, so no exit code enters
the behaviour of this function. -/
def create_scene_clip (videoFiles : List String) (cache : List (String × Bool))
    (settings : Settings) (sceneType : String) (rand : List Nat) : SceneClip :=
  let sceneVids := chooseParticipants videoFiles (reqVids sceneType) rand
  let mixAndMap := buildAudio sceneVids cache settings.clip_vol
  ⟨sceneVids, buildVideoFilters sceneType, mixAndMap.1, mixAndMap.2,
    settings.scene_duration⟩

/-- Tests whether a stage is one of the scale+pad tile stages. -/
def isScalePadStage : VStage → Bool
  | VStage.scalePad _ _ _ _ => true
  | _ => false

/-- Tests whether a stage is a row-stacking (`hstack`) stage. -/
def isHstackStage : VStage → Bool
  | VStage.hstack _ _ _ => true
  | _ => false

/-- Tests whether a stage is a column-stacking (`vstack`) stage. -/
def isVstackStage : VStage → Bool
  | VStage.vstack _ _ _ => true
  | _ => false

/-- Target frame size of a scale+pad stage. -/
def stageSize : VStage → Option (Nat × Nat)
  | VStage.scalePad _ w h _ => some (w, h)
  | _ => none

/-- Decimal digit characters of `n`, most significant first, computed
with structural fuel (`fuel > n` suffices); mirrors the digit sequence of
Python decimal formatting. -/
def toDecimalAux : Nat → Nat → List Char
  | 0, _ => []
  | Nat.succ fuel, n =>
    if n < 10 then [Char.ofNat (48 + n)]
    else toDecimalAux fuel (n / 10) ++ [Char.ofNat (48 + n % 10)]

/-- Decimal representation of `n`, as produced by Python `str`/`{:d}`. -/
def toDecimal (n : Nat) : List Char :=
  toDecimalAux (n + 1) n

/-- Python format `f"{i:04d}"`: the decimal representation left-padded
with the digit 0 to at least four characters. -/
def pad4 (n : Nat) : String :=
  String.mk (List.replicate (4 - (toDecimal n).length) (Char.ofNat 48) ++ toDecimal n)

/-- Intermediate clip filename for scene `i` (line 64):
`f"clip_{i:04d}.ts"`. -/
def clipName (i : Nat) : String :=
  "clip_" ++ pad4 i ++ ".ts"

/-- Single quote character, used by the manifest quoting convention. -/
def squote : String :=
  String.mk [Char.ofNat 39]

/-- One line of `concat_list.txt` (line 73): the word file, a space, then the basename wrapped in single-quote characters. -/
def manifestLine (basename : String) : String :=
  "file " ++ squote ++ basename ++ squote

/-- Observable behaviour of the external collaborators and of the random
module during one `VideoWorker.run`: the prober outcome per path, the two
random draws behind the layout decision of each scene, the participant-draw
stream of the render call of each scene, the exit code of the i-th per-scene
ffmpeg invocation, and the exit code of the final concatenation
invocation. -/
structure Env where
  probe : String → ProbeOutcome
  draws : Nat → Nat × Nat
  sceneRand : Nat → List Nat
  renderExit : Nat → Int
  concatExit : Int

/-- One per-scene ffmpeg invocation of stage 1 (lines 62-66): the scene
index, the assembled command data, the basename of the output path
`os.path.join(temp_dir, clip_name)`, and the exit code the external
process returned (which line 168 discards). -/
structure RenderCall where
  sceneIndex : Nat
  clip : SceneClip
  outputBase : String
  exitCode : Int
deriving DecidableEq

/-- Terminal observable state of one `VideoWorker.run`: the `finished`
signal with its success flag and message, the per-scene render invocations in
order, the lines of the concatenation manifest in order, and whether the
`finally` block removed the `temp_clips` workspace. -/
structure Outcome where
  success : Bool
  message : String
  renders : List RenderCall
  manifest : List String
  workspaceDeleted : Bool
deriving DecidableEq

/-- `VideoWorker.run` (lines 44-100).  The audio cache is filled first
(line 51); an exception escaping it is caught by the outer `except` arm
and reported as an error (line 97).  An empty plan reports the planning
failure of line 55.  Otherwise stage 1 renders every planned scene in
order — line 168 never consults the render exit code, so no render
outcome interrupts the loop — then stage 2 writes the manifest from the
collected clip paths and runs the final concatenation, whose return code
alone decides success (lines 90-94).  The `finally` block (lines 98-100)
removes the workspace on every path. -/
def runWorker (settings : Settings) (videoFiles : List String) (env : Env) : Outcome :=
  match cache_video_info videoFiles env.probe with
  | Except.error e =>
    ⟨false, "An error occurred: " ++ e, [], [], true⟩
  | Except.ok (cache, _) =>
    let scenes := plan_scenes settings env.draws
    if scenes.isEmpty then
      ⟨false, "Failed to plan any scenes. Check your duration settings.", [], [], true⟩
    else
      let renders := scenes.enum.map (fun p =>
        ⟨p.1, create_scene_clip videoFiles cache settings p.2 (env.sceneRand p.1),
          clipName p.1, env.renderExit p.1⟩)
      let manifest := renders.map (fun rc => manifestLine rc.outputBase)
      if env.concatExit = 0 then
        ⟨true, "Video generation successful!", renders, manifest, true⟩
      else
        ⟨false, "Final concatenation failed with exit code " ++ toString env.concatExit ++ ".",
          renders, manifest, true⟩

theorem randSample_length (k : Nat) : ∀ (xs : List String) (rand : List Nat),
    k ≤ xs.length → (randSample xs k rand).length = k := by
  induction k with
  | zero => intro xs rand _; rfl
  | succ k ih =>
    intro xs rand h
    have hpos : 0 < xs.length := Nat.lt_of_lt_of_le (Nat.succ_pos k) h
    have hi : rand.headD 0 % xs.length < xs.length := Nat.mod_lt _ hpos
    have hle : k ≤ (xs.eraseIdx (rand.headD 0 % xs.length)).length := by
      rw [List.length_eraseIdx_of_lt hi]; omega
    simp only [randSample, List.length_cons, ih _ _ hle]

theorem mem_of_mem_randSample (k : Nat) : ∀ (xs : List String) (rand : List Nat)
    (y : String), k ≤ xs.length → y ∈ randSample xs k rand → y ∈ xs := by
  induction k with
  | zero => intro xs rand y _ hy; simp [randSample] at hy
  | succ k ih =>
    intro xs rand y h hy
    have hpos : 0 < xs.length := Nat.lt_of_lt_of_le (Nat.succ_pos k) h
    have hi : rand.headD 0 % xs.length < xs.length := Nat.mod_lt _ hpos
    simp only [randSample, List.mem_cons] at hy
    rcases hy with hy | hy
    · subst hy
      rw [List.get?_eq_get hi, Option.getD_some]
      exact List.get_mem xs _ _
    · have hle : k ≤ (xs.eraseIdx (rand.headD 0 % xs.length)).length := by
        rw [List.length_eraseIdx_of_lt hi]; omega
      exact List.mem_of_mem_eraseIdx (ih _ _ y hle hy)

theorem randSample_nodup (k : Nat) : ∀ (xs : List String) (rand : List Nat),
    xs.Nodup → k ≤ xs.length → (randSample xs k rand).Nodup := by
  induction k with
  | zero => intro xs rand _ _; simp [randSample]
  | succ k ih =>
    intro xs rand hnd h
    have hpos : 0 < xs.length := Nat.lt_of_lt_of_le (Nat.succ_pos k) h
    have hi : rand.headD 0 % xs.length < xs.length := Nat.mod_lt _ hpos
    have hle : k ≤ (xs.eraseIdx (rand.headD 0 % xs.length)).length := by
      rw [List.length_eraseIdx_of_lt hi]; omega
    simp only [randSample, List.nodup_cons]
    refine ⟨fun hmem => ?_, ih _ _ (hnd.eraseIdx _) hle⟩
    have hmem2 : (xs.get? (rand.headD 0 % xs.length)).getD "" ∈
        xs.eraseIdx (rand.headD 0 % xs.length) :=
      mem_of_mem_randSample k _ _ _ hle hmem
    rw [List.get?_eq_get hi, Option.getD_some] at hmem2
    rcases List.mem_eraseIdx_iff_getElem?.mp hmem2 with ⟨j, hj, hgj⟩
    have hji : xs[j]? = xs[rand.headD 0 % xs.length]? := by
      rw [hgj, List.getElem?_eq_getElem hi, List.get_eq_getElem]
    have hjlt : j < xs.length := by
      rcases List.getElem?_eq_some_iff.mp hgj with ⟨hlt, _⟩
      exact hlt
    exact hj (List.getElem?_inj hjlt hnd hji)

theorem chooseParticipants_length (videoFiles : List String) (req : Nat)
    (rand : List Nat) : (chooseParticipants videoFiles req rand).length = req := by
  unfold chooseParticipants
  by_cases hlt : videoFiles.length < req
  · simp [hlt]
  · simp [hlt, randSample_length _ _ _ (Nat.le_of_not_lt hlt)]

theorem create_scene_clip_participants (videoFiles : List String)
    (cache : List (String × Bool)) (settings : Settings) (sceneType : String)
    (rand : List Nat) :
    (create_scene_clip videoFiles cache settings sceneType rand).participants
      = chooseParticipants videoFiles (reqVids sceneType) rand :=
  rfl

theorem create_scene_clip_participants_length (videoFiles : List String)
    (cache : List (String × Bool)) (settings : Settings) (sceneType : String)
    (rand : List Nat) :
    (create_scene_clip videoFiles cache settings sceneType rand).participants.length
      = reqVids sceneType := by
  rw [create_scene_clip_participants]
  exact chooseParticipants_length _ _ _

theorem mem_vidsWithAudio_iff (l : List String) (cache : List (String × Bool))
    (i : Nat) :
    i ∈ vidsWithAudio l cache ↔
      ∃ h : i < l.length, cacheHasAudio cache (l.get ⟨i, h⟩) = true := by
  unfold vidsWithAudio
  simp only [List.mem_map, List.mem_filter]
  constructor
  · rintro ⟨⟨j, v⟩, ⟨hmem, haud⟩, rfl⟩
    have hgv : l[j]? = some v := List.mem_enum_iff_getElem?.mp hmem
    rcases List.getElem?_eq_some_iff.mp hgv with ⟨hlt, hv⟩
    refine ⟨hlt, ?_⟩
    rw [List.get_eq_getElem, hv]
    exact haud
  · rintro ⟨h, haud⟩
    refine ⟨(i, l.get ⟨i, h⟩), ⟨?_, haud⟩, rfl⟩
    apply List.mem_enum_iff_getElem?.mpr
    simp [List.getElem?_eq_getElem h]

theorem vidsWithAudio_ne_nil_iff (sv : List String) (cache : List (String × Bool)) :
    vidsWithAudio sv cache ≠ [] ↔ ∃ v ∈ sv, cacheHasAudio cache v = true := by
  constructor
  · intro hne
    rcases List.exists_mem_of_ne_nil _ hne with ⟨i, hi⟩
    rcases (mem_vidsWithAudio_iff sv cache i).mp hi with ⟨h, haud⟩
    exact ⟨sv.get ⟨i, h⟩, List.get_mem _ _ _, haud⟩
  · rintro ⟨v, hv, haud⟩
    rcases List.mem_iff_get.mp hv with ⟨⟨i, h⟩, rfl⟩
    exact List.ne_nil_of_mem ((mem_vidsWithAudio_iff sv cache i).mpr ⟨h, haud⟩)

theorem buildAudio_exact (sv : List String) (cache : List (String × Bool)) (vol : ℚ) :
    ((buildAudio sv cache vol).1.isSome = true ↔
      ∃ v ∈ sv, cacheHasAudio cache v = true) ∧
    (∀ m, (buildAudio sv cache vol).1 = some m →
      (∀ i, i ∈ m.inputs ↔
        ∃ h : i < sv.length, cacheHasAudio cache (sv.get ⟨i, h⟩) = true) ∧
      m.nInputs = m.inputs.length ∧ m.volume = vol ∧
      (buildAudio sv cache vol).2 = AudioMap.aout) ∧
    ((buildAudio sv cache vol).1 = none → (buildAudio sv cache vol).2 = AudioMap.an) := by
  by_cases he : (vidsWithAudio sv cache).isEmpty = true
  · have hnil : vidsWithAudio sv cache = [] := List.isEmpty_iff.mp he
    have heq : buildAudio sv cache vol = (none, AudioMap.an) := by
      unfold buildAudio
      rw [if_pos he]
    rw [heq]
    refine ⟨?_, fun m hm => Option.noConfusion hm, fun _ => rfl⟩
    exact iff_of_false (by simp)
      (fun hex => (vidsWithAudio_ne_nil_iff sv cache).mpr hex hnil)
  · have hne : vidsWithAudio sv cache ≠ [] :=
      fun hnil => he (List.isEmpty_iff.mpr hnil)
    have heq : buildAudio sv cache vol =
        (some ⟨vidsWithAudio sv cache, (vidsWithAudio sv cache).length, vol⟩,
          AudioMap.aout) := by
      unfold buildAudio
      rw [if_neg he]
    rw [heq]
    refine ⟨iff_of_true rfl ((vidsWithAudio_ne_nil_iff sv cache).mp hne),
      fun m hm => ?_, fun hm => Option.noConfusion hm⟩
    injection hm with h
    subst h
    exact ⟨fun i => mem_vidsWithAudio_iff sv cache i, rfl, rfl, rfl⟩

theorem toDecimalAux_length_le : ∀ (fuel n k : Nat), n < fuel → 1 ≤ k →
    n < 10 ^ k → (toDecimalAux fuel n).length ≤ k := by
  intro fuel
  induction fuel with
  | zero => intro n k h _ _; omega
  | succ fuel ih =>
    intro n k hn hk hpow
    by_cases h10 : n < 10
    · simp only [toDecimalAux, if_pos h10, List.length_cons, List.length_nil]
      omega
    · simp only [toDecimalAux, if_neg h10, List.length_append, List.length_cons,
        List.length_nil]
      have hk2 : 2 ≤ k := by
        by_contra hc
        have hk1 : k = 1 := by omega
        subst hk1
        have : (10 : Nat) ^ 1 = 10 := by norm_num
        omega
      have hdiv : n / 10 < fuel := by
        have : n / 10 < n := Nat.div_lt_self (by omega) (by omega)
        omega
      have hdp : n / 10 < 10 ^ (k - 1) := by
        rw [Nat.div_lt_iff_lt_mul (by omega)]
        have hp : 10 ^ (k - 1) * 10 = 10 ^ k := by
          rw [← pow_succ]
          congr 1
          omega
        omega
      have := ih (n / 10) (k - 1) hdiv (by omega) hdp
      omega

theorem toDecimal_length_pos (n : Nat) : 1 ≤ (toDecimal n).length := by
  unfold toDecimal toDecimalAux
  by_cases h10 : n < 10
  · simp [h10]
  · simp only [if_neg h10, List.length_append, List.length_cons, List.length_nil]
    omega

theorem pad4_length (n : Nat) (h : n < 10000) : (pad4 n).length = 4 := by
  have h1 : 1 ≤ (toDecimal n).length := toDecimal_length_pos n
  have hpow : (10 : Nat) ^ 4 = 10000 := by norm_num
  have h4 : (toDecimal n).length ≤ 4 :=
    toDecimalAux_length_le (n + 1) n 4 (by omega) (by omega) (by omega)
  have hlen : (pad4 n).length =
      (List.replicate (4 - (toDecimal n).length) (Char.ofNat 48) ++ toDecimal n).length :=
    rfl
  rw [hlen, List.length_append, List.length_replicate]
  omega

theorem runWorker_renders_manifest (settings : Settings) (videoFiles : List String)
    (env : Env) (cache : List (String × Bool)) (calls : List String)
    (hc : cache_video_info videoFiles env.probe = Except.ok (cache, calls)) :
    (runWorker settings videoFiles env).renders
        = (plan_scenes settings env.draws).enum.map (fun p =>
            ⟨p.1, create_scene_clip videoFiles cache settings p.2 (env.sceneRand p.1),
              clipName p.1, env.renderExit p.1⟩) ∧
    (runWorker settings videoFiles env).manifest
        = (plan_scenes settings env.draws).enum.map
            (fun p => manifestLine (clipName p.1)) := by
  unfold runWorker
  cases hcv : cache_video_info videoFiles env.probe with
  | error e =>
    rw [hcv] at hc
    cases hc
  | ok p =>
    rw [hcv] at hc
    injection hc with h
    obtain ⟨c2, l2⟩ := p
    injection h with h1 h2
    subst h1
    subst h2
    dsimp only
    by_cases hemp : (plan_scenes settings env.draws).isEmpty = true
    · rw [if_pos hemp, List.isEmpty_iff.mp hemp]
      exact ⟨rfl, rfl⟩
    · rw [if_neg hemp]
      by_cases hz : env.concatExit = 0
      · rw [if_pos hz]
        exact ⟨rfl, by rw [List.map_map]; rfl⟩
      · rw [if_neg hz]
        exact ⟨rfl, by rw [List.map_map]; rfl⟩

/-!
Claim theorems.
-/

/-- C1 counterexample: over a two-scene plan, the first per-scene render
invocation exits with code 1, yet both scenes are rendered (no abort) and
the overall outcome is `success = true` because only the concatenation
exit code is consulted (`subprocess.run` on line 168 discards the render
result). -/
theorem render_exit_ignored_counterexample :
    ((runWorker ⟨0, 1, 12, 6, "out", "out/c.mp4"⟩ ["a", "b"]
        ⟨fun _ => ProbeOutcome.exitNonzero, fun _ => (100, 0), fun _ => [0],
          fun i => if i = 0 then 1 else 0, 0⟩).success = true) ∧
    ((runWorker ⟨0, 1, 12, 6, "out", "out/c.mp4"⟩ ["a", "b"]
        ⟨fun _ => ProbeOutcome.exitNonzero, fun _ => (100, 0), fun _ => [0],
          fun i => if i = 0 then 1 else 0, 0⟩).renders.map (fun rc => rc.exitCode)
      = [1, 0]) := by
  decide

/-- C1 amended: the workspace is deleted on every exit path, and a
non-zero exit from the final concatenation call yields
`success = false`; but a non-zero exit from a per-scene render call is
ignored — every planned scene is still rendered and overall success is
decided solely by the concatenation exit code. -/
theorem concat_exit_decides_success_and_cleanup (settings : Settings)
    (videoFiles : List String) (env : Env) :
    (runWorker settings videoFiles env).workspaceDeleted = true ∧
    (env.concatExit ≠ 0 → (runWorker settings videoFiles env).success = false) ∧
    ((runWorker settings videoFiles env).success = true → env.concatExit = 0) ∧
    (∀ cache calls, cache_video_info videoFiles env.probe = Except.ok (cache, calls) →
      (runWorker settings videoFiles env).renders.length
        = (plan_scenes settings env.draws).length) := by
  unfold runWorker
  cases hc : cache_video_info videoFiles env.probe with
  | error e =>
    dsimp only
    exact ⟨rfl, fun _ => rfl, fun hs => Bool.noConfusion hs,
      fun cache calls hcc => Except.noConfusion hcc⟩
  | ok p =>
    obtain ⟨cache0, calls0⟩ := p
    dsimp only
    by_cases hemp : (plan_scenes settings env.draws).isEmpty = true
    · rw [if_pos hemp]
      refine ⟨rfl, fun _ => rfl, fun hs => Bool.noConfusion hs, fun _ _ _ => ?_⟩
      rw [List.isEmpty_iff.mp hemp]
      rfl
    · rw [if_neg hemp]
      by_cases hz : env.concatExit = 0
      · rw [if_pos hz]
        refine ⟨rfl, fun hnz => absurd hz hnz, fun _ => hz, fun _ _ _ => ?_⟩
        rw [List.length_map, List.enum_length]
      · rw [if_neg hz]
        refine ⟨rfl, fun _ => rfl, fun hs => Bool.noConfusion hs, fun _ _ _ => ?_⟩
        rw [List.length_map, List.enum_length]

/-- C1 amended witness: a failing concatenation (exit code 1) over a
two-scene plan yields `success = false`, a deleted workspace, and both
scenes nevertheless rendered. -/
theorem concat_exit_decides_success_and_cleanup_witness :
    ((runWorker ⟨0, 1, 12, 6, "o", "p"⟩ ["a"]
        ⟨fun _ => ProbeOutcome.exitNonzero, fun _ => (100, 0), fun _ => [0],
          fun _ => 0, 1⟩).success = false) ∧
    ((runWorker ⟨0, 1, 12, 6, "o", "p"⟩ ["a"]
        ⟨fun _ => ProbeOutcome.exitNonzero, fun _ => (100, 0), fun _ => [0],
          fun _ => 0, 1⟩).workspaceDeleted = true) ∧
    ((runWorker ⟨0, 1, 12, 6, "o", "p"⟩ ["a"]
        ⟨fun _ => ProbeOutcome.exitNonzero, fun _ => (100, 0), fun _ => [0],
          fun _ => 0, 1⟩).renders.length
      = (plan_scenes ⟨0, 1, 12, 6, "o", "p"⟩ (fun _ => (100, 0))).length) := by
  have h := concat_exit_decides_success_and_cleanup ⟨0, 1, 12, 6, "o", "p"⟩ ["a"]
    ⟨fun _ => ProbeOutcome.exitNonzero, fun _ => (100, 0), fun _ => [0],
      fun _ => 0, 1⟩
  exact ⟨h.2.1 (by decide), h.1, h.2.2.2 [("a", false)] ["a"] (by rfl)⟩

/-- C4: for settings with `sceneDuration > 0` the planned scene count is
the floor of `totalDuration / sceneDuration` (`Int.fdiv` is Python floor
division `//`); when `sceneDuration <= 0` the plan is empty and the
pipeline reports a planning failure (`success = false`) without rendering
anything. -/
theorem plan_count_floor_and_planning_failure (settings : Settings)
    (videoFiles : List String) (env : Env) :
    (0 < settings.scene_duration → 0 ≤ settings.total_duration →
      ((plan_scenes settings env.draws).length : Int)
        = settings.total_duration.fdiv settings.scene_duration) ∧
    (settings.scene_duration ≤ 0 →
      plan_scenes settings env.draws = [] ∧
      (runWorker settings videoFiles env).success = false ∧
      (runWorker settings videoFiles env).renders = []) := by
  constructor
  · intro hpos hnn
    unfold plan_scenes
    rw [if_neg (by omega), List.length_map, List.length_range]
    exact Int.toNat_of_nonneg (Int.fdiv_nonneg hnn (by omega))
  · intro hnp
    have hplan : plan_scenes settings env.draws = [] := by
      unfold plan_scenes
      rw [if_pos hnp]
    refine ⟨hplan, ?_⟩
    unfold runWorker
    cases hc : cache_video_info videoFiles env.probe with
    | error e => exact ⟨rfl, rfl⟩
    | ok p =>
      obtain ⟨cache, calls⟩ := p
      simp [hplan]

/-- C4 witness: with `totalDuration = 13`, `sceneDuration = 6` the plan
has `13 // 6 = 2` scenes; with `sceneDuration = 0` the run fails with an
empty render list. -/
theorem plan_count_floor_and_planning_failure_witness :
    (((plan_scenes ⟨50, 1, 13, 6, "o", "p"⟩ (fun _ => (100, 0))).length : Int)
      = (13 : Int).fdiv 6) ∧
    ((runWorker ⟨50, 1, 13, 0, "o", "p"⟩ ["a"]
      ⟨fun _ => ProbeOutcome.exitNonzero, fun _ => (100, 0), fun _ => [0],
        fun _ => 0, 0⟩).success = false) := by
  constructor
  · exact (plan_count_floor_and_planning_failure ⟨50, 1, 13, 6, "o", "p"⟩ []
      ⟨fun _ => ProbeOutcome.exitNonzero, fun _ => (100, 0), fun _ => [0],
        fun _ => 0, 0⟩).1 (by norm_num) (by norm_num)
  · exact ((plan_count_floor_and_planning_failure ⟨50, 1, 13, 0, "o", "p"⟩ ["a"]
      ⟨fun _ => ProbeOutcome.exitNonzero, fun _ => (100, 0), fun _ => [0],
        fun _ => 0, 0⟩).2 (by norm_num)).2.1

/-- C5: for a pool of pairwise-distinct clips, the participant
count of every scene equals the required count of the layout, and when the pool is at least
as large as required the participants (drawn by `random.sample`) are
pairwise distinct; otherwise they are drawn with replacement, still with
exactly the required count. -/
theorem participants_count_and_distinctness (videoFiles : List String)
    (cache : List (String × Bool)) (settings : Settings) (sceneType : String)
    (rand : List Nat) (hnd : videoFiles.Nodup) :
    ((create_scene_clip videoFiles cache settings sceneType rand).participants.length
        = reqVids sceneType) ∧
    (reqVids sceneType ≤ videoFiles.length →
      (create_scene_clip videoFiles cache settings sceneType rand).participants.Nodup) := by
  refine ⟨create_scene_clip_participants_length _ _ _ _ _, fun hle => ?_⟩
  rw [create_scene_clip_participants]
  unfold chooseParticipants
  rw [if_neg (Nat.not_lt.mpr hle)]
  exact randSample_nodup _ _ _ hnd hle

/-- C5 witness: a 2x2 scene over a distinct four-clip pool has four
pairwise-distinct participants. -/
theorem participants_count_and_distinctness_witness :
    ((create_scene_clip ["a", "b", "c", "d"] [] ⟨0, 1, 6, 6, "o", "p"⟩ "2x2"
        [0, 1, 2, 3]).participants.length = reqVids "2x2") ∧
    ((create_scene_clip ["a", "b", "c", "d"] [] ⟨0, 1, 6, 6, "o", "p"⟩ "2x2"
        [0, 1, 2, 3]).participants.Nodup) := by
  have h := participants_count_and_distinctness ["a", "b", "c", "d"] []
    ⟨0, 1, 6, 6, "o", "p"⟩ "2x2" [0, 1, 2, 3] (by decide)
  exact ⟨h.1, h.2 (by decide)⟩

/-- C7: the claim states that `get_media_info` never lets a probe error
reach the caller.  The code catches `CalledProcessError`,
`JSONDecodeError` and `KeyError`, but `KeyError` is unreachable there and
the exception actually raised when ffprobe exits 0 with top-level
non-object JSON output is `AttributeError` (from `info.get` on a
non-dict), which escapes: evaluating the embedded function at that
failing input yields an error instead of `has_audio = false`. -/
theorem probe_non_object_json_escapes :
    get_media_info (ProbeOutcome.exitZero ProbeJson.nonObj)
      = Except.error "AttributeError" :=
  rfl

/-- C2 counterexample: the 3x3 filter graph does not deliver the claimed
fixed 1280x720 frame.  Its tiles are `1280 // 3 = 426` by `720 // 3 = 240`,
so stacking yields 1278x720, which also differs from the 1280x720 frame of
a single-layout scene — rendered intermediates do not all share one frame
size. -/
theorem grid3x3_resolution_counterexample :
    videoOutSize (buildVideoFilters "3x3") = some (1278, 720) ∧
    videoOutSize (buildVideoFilters "single") = some (1280, 720) ∧
    some ((1278 : Nat), (720 : Nat)) ≠ some ((1280 : Nat), (720 : Nat)) := by
  decide

/-- C2 amended: the graph structure is as claimed — the single layout is
one scale+pad stage to 1280x720, and a grid of dimension `d` consists of
`d * d` scale+pad tile stages of size `(1280 / d)` by `(720 / d)` (integer
division), then `d` row-stacking stages, then one column-stacking stage,
in that order — but the delivered output frame is 1280x720 only for the
single and 2x2 layouts; for 3x3 it is 1278x720, so intermediates do not
all share an identical frame size. -/
theorem filter_graph_structure_amended :
    buildVideoFilters "single" = [VStage.scalePad 0 1280 720 "vout"] ∧
    ((buildVideoFilters "2x2").filter isScalePadStage).length = 2 * 2 ∧
    ((buildVideoFilters "2x2").filter isScalePadStage).all
      (fun s => stageSize s = some (1280 / 2, 720 / 2)) = true ∧
    ((buildVideoFilters "2x2").filter isHstackStage).length = 2 ∧
    ((buildVideoFilters "2x2").filter isVstackStage).length = 1 ∧
    ((buildVideoFilters "3x3").filter isScalePadStage).length = 3 * 3 ∧
    ((buildVideoFilters "3x3").filter isScalePadStage).all
      (fun s => stageSize s = some (1280 / 3, 720 / 3)) = true ∧
    ((buildVideoFilters "3x3").filter isHstackStage).length = 3 ∧
    ((buildVideoFilters "3x3").filter isVstackStage).length = 1 ∧
    buildVideoFilters "2x2" =
      (buildVideoFilters "2x2").filter isScalePadStage ++
      (buildVideoFilters "2x2").filter isHstackStage ++
      (buildVideoFilters "2x2").filter isVstackStage ∧
    buildVideoFilters "3x3" =
      (buildVideoFilters "3x3").filter isScalePadStage ++
      (buildVideoFilters "3x3").filter isHstackStage ++
      (buildVideoFilters "3x3").filter isVstackStage ∧
    videoOutSize (buildVideoFilters "single") = some (1280, 720) ∧
    videoOutSize (buildVideoFilters "2x2") = some (1280, 720) ∧
    videoOutSize (buildVideoFilters "3x3") = some (1278, 720) := by
  decide

/-- C3 counterexample: the participants of a scene are not fixed by the
planner output.  For the same planned scene (type `single`) and the
same pool, two different render-stage random draws yield different
participant sequences, so participant selection happens during
rendering. -/
theorem participants_selected_at_render_counterexample :
    (create_scene_clip ["a", "b"] [] ⟨0, 1, 6, 6, "o", "p"⟩ "single"
        [0]).participants ≠
    (create_scene_clip ["a", "b"] [] ⟨0, 1, 6, 6, "o", "p"⟩ "single"
        [1]).participants := by
  decide

/-- C3 amended: the planner creates, before any rendering, scenes that
consist only of a layout type (one of `single`, `2x2`, `3x3`); the
ordered participant sequence — of length 1, 4 or 9 matching the layout —
is selected during the rendering stage by `_create_scene_clip`, not by
the planner. -/
theorem plan_is_layout_only_participants_at_render (settings : Settings)
    (draws : Nat → Nat × Nat) :
    (∀ t ∈ plan_scenes settings draws,
      t = "single" ∨ t = "2x2" ∨ t = "3x3") ∧
    (∀ (videoFiles : List String) (cache : List (String × Bool)) (rand : List Nat)
      (t : String),
      (create_scene_clip videoFiles cache settings t rand).participants.length
        = reqVids t) ∧
    reqVids "single" = 1 ∧ reqVids "2x2" = 4 ∧ reqVids "3x3" = 9 := by
  refine ⟨?_, fun videoFiles cache rand t =>
    create_scene_clip_participants_length _ _ _ _ _, by decide, by decide, by decide⟩
  intro t ht
  unfold plan_scenes at ht
  by_cases hnp : settings.scene_duration ≤ 0
  · rw [if_pos hnp] at ht
    cases ht
  · rw [if_neg hnp] at ht
    rcases List.mem_map.mp ht with ⟨k, _, rfl⟩
    unfold drawScene
    by_cases hr : (draws k).1 ≤ settings.layout_mix
    · rw [if_pos hr]
      unfold randChoice
      have h2 : (draws k).2 % 2 = 0 ∨ (draws k).2 % 2 = 1 := by omega
      rcases h2 with h2 | h2 <;> rw [show (["2x2", "3x3"] : List String).length = 2 from rfl, h2] <;> simp
    · rw [if_neg hr]
      left
      rfl

/-- C3 amended witness: a concrete plan entry is one of the three layout
types, and a 3x3 scene selects exactly nine participants at render
time. -/
theorem plan_is_layout_only_participants_at_render_witness :
    ("single" = "single" ∨ "single" = "2x2" ∨ ("single" : String) = "3x3") ∧
    (create_scene_clip ["a"] [] ⟨0, 1, 12, 6, "o", "p"⟩ "3x3" []).participants.length
      = reqVids "3x3" := by
  have h := plan_is_layout_only_participants_at_render ⟨0, 1, 12, 6, "o", "p"⟩
    (fun _ => (100, 0))
  refine ⟨h.1 "single" ?_, h.2.1 ["a"] [] [] "3x3"⟩
  show "single" ∈ plan_scenes ⟨0, 1, 12, 6, "o", "p"⟩ (fun _ => (100, 0))
  decide

/-- C6: the `amix` stage of a scene is present iff at least one participant has
cached audio; when present its input indices are exactly the positions of
the audio-bearing participants, its declared input count matches, the mix
is scaled by `clip_vol`, and the final mapping uses `[aout]`; when absent
the final mapping is `-an`. -/
theorem audio_mix_exactly_audio_bearing (videoFiles : List String)
    (cache : List (String × Bool)) (settings : Settings) (sceneType : String)
    (rand : List Nat) :
    ((create_scene_clip videoFiles cache settings sceneType rand).audioMix.isSome = true
      ↔ ∃ v ∈ (create_scene_clip videoFiles cache settings sceneType rand).participants,
          cacheHasAudio cache v = true) ∧
    (∀ m, (create_scene_clip videoFiles cache settings sceneType rand).audioMix = some m →
      (∀ i, i ∈ m.inputs ↔
        ∃ h : i <
            (create_scene_clip videoFiles cache settings sceneType rand).participants.length,
          cacheHasAudio cache
            ((create_scene_clip videoFiles cache settings sceneType rand).participants.get
              ⟨i, h⟩) = true) ∧
      m.nInputs = m.inputs.length ∧ m.volume = settings.clip_vol ∧
      (create_scene_clip videoFiles cache settings sceneType rand).audioMap
        = AudioMap.aout) ∧
    ((create_scene_clip videoFiles cache settings sceneType rand).audioMix = none →
      (create_scene_clip videoFiles cache settings sceneType rand).audioMap
        = AudioMap.an) :=
  buildAudio_exact (chooseParticipants videoFiles (reqVids sceneType) rand) cache
    settings.clip_vol

/-- C6 witness: over the pool `a b c d` with only `a` carrying audio, a
2x2 scene sampling all four clips gets a mix stage whose input set is
exactly the index of `a`, scaled by the configured volume, and mapped as
`[aout]`. -/
theorem audio_mix_exactly_audio_bearing_witness :
    ((create_scene_clip ["a", "b", "c", "d"] [("a", true)] ⟨0, 1, 6, 6, "o", "p"⟩
        "2x2" [0, 0, 0, 0]).audioMix.isSome = true) ∧
    (∀ m, (create_scene_clip ["a", "b", "c", "d"] [("a", true)] ⟨0, 1, 6, 6, "o", "p"⟩
        "2x2" [0, 0, 0, 0]).audioMix = some m → m.volume = 1) := by
  have h := audio_mix_exactly_audio_bearing ["a", "b", "c", "d"] [("a", true)]
    ⟨0, 1, 6, 6, "o", "p"⟩ "2x2" [0, 0, 0, 0]
  refine ⟨h.1.mpr ⟨"a", by decide, by decide⟩, fun m hm => (h.2.1 m hm).2.2.1⟩

/-- C8: for any run whose audio scan succeeds, the concatenation manifest
has exactly one line per planned scene, the line for scene `i` (0-based)
is `file clip_XXXX.ts` (single-quoted) with `XXXX` the zero-padded index,
in exactly the planned scene order; the intermediate for scene `i` is
named `clip_<pad4 i>.ts`, and for every index below 10000 the padded
index is exactly four digits. -/
theorem manifest_names_and_planning_order (settings : Settings)
    (videoFiles : List String) (env : Env) (cache : List (String × Bool))
    (calls : List String)
    (hc : cache_video_info videoFiles env.probe = Except.ok (cache, calls)) :
    ((runWorker settings videoFiles env).manifest.length
        = (plan_scenes settings env.draws).length) ∧
    (∀ i, i < (plan_scenes settings env.draws).length →
      (runWorker settings videoFiles env).manifest[i]?
        = some (manifestLine (clipName i))) ∧
    (∀ i, i < (plan_scenes settings env.draws).length →
      ((runWorker settings videoFiles env).renders[i]?).map
        (fun rc => (rc.sceneIndex, rc.outputBase)) = some (i, clipName i)) ∧
    (∀ i, i < 10000 → (pad4 i).length = 4) := by
  have h := runWorker_renders_manifest settings videoFiles env cache calls hc
  refine ⟨?_, fun i hi => ?_, fun i hi => ?_, fun i hi => pad4_length i hi⟩
  · rw [h.2, List.length_map, List.enum_length]
  · rw [h.2, List.getElem?_map, List.getElem?_enum, List.getElem?_eq_getElem hi]
    rfl
  · rw [h.1, List.getElem?_map, List.getElem?_enum, List.getElem?_eq_getElem hi]
    rfl

/-- C8 witness: a two-scene plan produces a two-line manifest whose
second line names `clip_0001.ts`, and `123` pads to the four digits
`0123`. -/
theorem manifest_names_and_planning_order_witness :
    ((runWorker ⟨0, 1, 12, 6, "o", "p"⟩ ["a"]
        ⟨fun _ => ProbeOutcome.exitNonzero, fun _ => (100, 0), fun _ => [0],
          fun _ => 0, 0⟩).manifest[1]? = some (manifestLine (clipName 1))) ∧
    (pad4 123).length = 4 := by
  have h := manifest_names_and_planning_order ⟨0, 1, 12, 6, "o", "p"⟩ ["a"]
    ⟨fun _ => ProbeOutcome.exitNonzero, fun _ => (100, 0), fun _ => [0],
      fun _ => 0, 0⟩ [("a", false)] ["a"] (by rfl)
  exact ⟨h.2.1 1 (by decide), h.2.2.2 123 (by decide)⟩

/-- C9: with `layoutMixPercent = 0` every planned scene is `single`;
with `layoutMixPercent = 100` every planned scene is a grid (`2x2` or
`3x3`); and the layout draw realises the stated distribution — among
the 100 equiprobable values of `random.randint(1, 100)` exactly
`layout_mix` yield a grid, and for a grid draw the two equiprobable
values of the `random.choice` index yield `2x2` and `3x3` once
each. -/
theorem layout_mix_endpoints_and_distribution (settings : Settings)
    (draws : Nat → Nat × Nat)
    (hr : ∀ k, 1 ≤ (draws k).1 ∧ (draws k).1 ≤ 100) :
    (settings.layout_mix = 0 → ∀ t ∈ plan_scenes settings draws, t = "single") ∧
    (settings.layout_mix = 100 → ∀ t ∈ plan_scenes settings draws,
      t = "2x2" ∨ t = "3x3") ∧
    (settings.layout_mix ≤ 100 → ∀ g,
      ((Finset.Icc 1 100).filter
        (fun r => drawScene settings.layout_mix r g ≠ "single")).card
        = settings.layout_mix) ∧
    (∀ r, r ≤ settings.layout_mix →
      ((Finset.range 2).filter
        (fun g => drawScene settings.layout_mix r g = "2x2")).card = 1 ∧
      ((Finset.range 2).filter
        (fun g => drawScene settings.layout_mix r g = "3x3")).card = 1) := by
  have hmemPlan : ∀ t ∈ plan_scenes settings draws,
      ∃ k, t = drawScene settings.layout_mix (draws k).1 (draws k).2 := by
    intro t ht
    unfold plan_scenes at ht
    by_cases hnp : settings.scene_duration ≤ 0
    · rw [if_pos hnp] at ht
      cases ht
    · rw [if_neg hnp] at ht
      rcases List.mem_map.mp ht with ⟨k, _, rfl⟩
      exact ⟨k, rfl⟩
  have hgrid : ∀ g, randChoice ["2x2", "3x3"] g = "2x2" ∨
      randChoice ["2x2", "3x3"] g = "3x3" := by
    intro g
    unfold randChoice
    have hlen : (["2x2", "3x3"] : List String).length = 2 := rfl
    rw [hlen]
    have h2 : g % 2 = 0 ∨ g % 2 = 1 := by omega
    rcases h2 with h2 | h2 <;> rw [h2] <;> simp
  refine ⟨fun h0 t ht => ?_, fun h100 t ht => ?_, fun hle g => ?_, fun r hrm => ?_⟩
  · rcases hmemPlan t ht with ⟨k, rfl⟩
    unfold drawScene
    rw [if_neg (by have := (hr k).1; omega)]
  · rcases hmemPlan t ht with ⟨k, rfl⟩
    unfold drawScene
    rw [if_pos (by have := (hr k).2; omega)]
    exact hgrid (draws k).2
  · have hfe : (Finset.Icc 1 100).filter
        (fun r => drawScene settings.layout_mix r g ≠ "single")
        = Finset.Icc 1 settings.layout_mix := by
      ext r
      simp only [Finset.mem_filter, Finset.mem_Icc]
      constructor
      · rintro ⟨⟨h1, h100⟩, hne⟩
        refine ⟨h1, ?_⟩
        by_contra hgt
        apply hne
        unfold drawScene
        rw [if_neg (by omega)]
      · rintro ⟨h1, hrm⟩
        refine ⟨⟨h1, by omega⟩, ?_⟩
        unfold drawScene
        rw [if_pos hrm]
        rcases hgrid g with hg | hg <;> rw [hg] <;> decide
    rw [hfe, Nat.card_Icc]
    omega
  · have hds : ∀ g, drawScene settings.layout_mix r g
        = randChoice ["2x2", "3x3"] g :=
      fun g => if_pos hrm
    constructor
    · rw [Finset.filter_congr (fun g _ => by rw [hds g])]
      decide
    · rw [Finset.filter_congr (fun g _ => by rw [hds g])]
      decide

/-- C9 witness: at `layout_mix = 30` exactly 30 of the 100 randint values
give a grid, and for an in-range draw the two choice indices split evenly
between the grid kinds; at `layout_mix = 0` a concretely planned scene is
`single`. -/
theorem layout_mix_endpoints_and_distribution_witness :
    (((Finset.Icc 1 100).filter (fun r => drawScene 30 r 0 ≠ "single")).card = 30) ∧
    (((Finset.range 2).filter (fun g => drawScene 30 5 g = "2x2")).card = 1) ∧
    ("single" ∈ plan_scenes ⟨0, 1, 6, 6, "o", "p"⟩ (fun _ => (50, 1)) →
      "single" = "single") := by
  have h := layout_mix_endpoints_and_distribution ⟨30, 1, 12, 6, "o", "p"⟩
    (fun _ => (50, 0)) (fun k => by dsimp only; omega)
  have h0 := layout_mix_endpoints_and_distribution ⟨0, 1, 6, 6, "o", "p"⟩
    (fun _ => (50, 1)) (fun k => by dsimp only; omega)
  exact ⟨h.2.2.1 (by decide) 0, (h.2.2.2 5 (by decide)).1, h0.1 rfl "single"⟩

example : reqVids "single" = 1 := by decide
example : videoOutSize (buildVideoFilters "single") = some (1280, 720) := by decide
example : pad4 7 = "0007" := by decide
example : pad4 123 = "0123" := by decide
example : pad4 0 = "0000" := by decide
example : pad4 54321 = "54321" := by decide
example : clipName 3 = "clip_0003.ts" := by decide
example : videoOutSize (buildVideoFilters "2x2") = some (1280, 720) := by decide
example : videoOutSize (buildVideoFilters "3x3") = some (1278, 720) := by decide
example : randSample ["a", "b", "c"] 2 [0, 0] = ["a", "b"] := by decide
example : randSample ["a", "b", "c"] 2 [2, 1] = ["c", "b"] := by decide
example :
    plan_scenes ⟨0, 1, 12, 6, "o", "p"⟩ (fun _ => (100, 0)) = ["single", "single"] := by
  decide
example : plan_scenes ⟨50, 1, 12, 0, "o", "p"⟩ (fun _ => (100, 0)) = [] := by decide
example : plan_scenes ⟨100, 1, 6, 6, "o", "p"⟩ (fun _ => (7, 1)) = ["3x3"] := by decide
